import Mathlib

/-!
Verification of the chain specification module of the Rundler bundler
(`crates/types/src/chain.rs`): the per-chain parameter table (`ChainSpec`),
its default values, its widening gas-constant accessors, the capability
registries (`ContractRegistry`), and the small derived predicates
(`supports_eip7702`, proxy-address enumeration).  Machine integers are
modelled as `Nat`; `u64`/`u128` ranges appear as explicit bounds or
explicit reduction modulo `2 ^ 128` where the source performs an `as u128`
cast.  Trait objects (`dyn SignatureAggregator`, `dyn SubmissionProxy`) are
external to the module and are modelled as opaque tokens: only their
identity is ever used here.  `HashMap` state is modelled as an association
list with in-place-replacing insertion, matching `HashMap::insert`
semantics extensionally.
-/

namespace Rundler

/-- A 160-bit account address (`alloy_primitives::Address`), modelled by its
numeric value. -/
abbrev Address := Nat

/-- Entry point contract address for ERC-4337 v0.6 (constant
`ENTRY_POINT_ADDRESS_V0_6` in the source). -/
def ENTRY_POINT_ADDRESS_V0_6 : Address := 0x5FF137D4b0FDCD49DcA30c7CF57E578a026d2789

/-- Entry point contract address for ERC-4337 v0.7 (constant
`ENTRY_POINT_ADDRESS_V0_7` in the source). -/
def ENTRY_POINT_ADDRESS_V0_7 : Address := 0x0000000071727De22E5E9d8BAf0edAc6f37da032

/-- Address of the multicall3 contract (constant `MULTICALL3_ADDRESS`). -/
def MULTICALL3_ADDRESS : Address := 0xcA11bde05977b3631167028862bE2a173976CA11

/-- A signature-aggregation capability.  In the source this is a trait
object `Arc<dyn SignatureAggregator>` defined outside this module; the
registry logic only stores and returns it, so it is modelled as an opaque
token identified by a tag. -/
structure SignatureAggregator where
  tag : Nat
deriving DecidableEq, Repr

/-- A submission-proxy capability (`Arc<dyn SubmissionProxy>` in the
source), modelled as an opaque token like `SignatureAggregator`. -/
structure SubmissionProxy where
  tag : Nat
deriving DecidableEq, Repr

/-- Type tag of the DA gas oracle contract (`DAGasOracleType` from
`crate::da`, external to this module).  Its variants are never inspected
here, so it is modelled as an opaque tag; `DAGasOracleType::default()` is
tag `0`. -/
structure DAGasOracleType where
  tag : Nat
deriving DecidableEq, Repr

/-- Default `DAGasOracleType` (the enum's `#[default]` variant). -/
def DAGasOracleType.default : DAGasOracleType := ⟨0⟩

/-- Type of oracle for estimating priority fees (`PriorityFeeOracleType`). -/
inductive PriorityFeeOracleType where
  /-- Use eth_maxPriorityFeePerGas on the provider -/
  | Provider
  /-- Use the usage based oracle -/
  | UsageBased
deriving DecidableEq, Repr

/-- Default `PriorityFeeOracleType`: the `#[default]` attribute in the
source marks `Provider`. -/
def PriorityFeeOracleType.default : PriorityFeeOracleType := .Provider

/-- Insertion into an association list with `HashMap::insert` semantics:
if the key is present its value is replaced, otherwise the pair is
appended. -/
def insertAssoc {T : Type} : List (Address × T) → Address → T → List (Address × T)
  | [], a, v => [(a, v)]
  | (k, w) :: rest, a, v =>
      if k = a then (a, v) :: rest else (k, w) :: insertAssoc rest a v

/-- Lookup in an association list: value of the first pair whose key
matches, `HashMap::get` semantics. -/
def lookupAssoc {T : Type} : List (Address × T) → Address → Option T
  | [], _ => none
  | (k, w) :: rest, a => if k = a then some w else lookupAssoc rest a

/-- Registry of contracts (`ContractRegistry<T>`): a `HashMap<Address, T>`
modelled as an association list. -/
structure ContractRegistry (T : Type) where
  contracts : List (Address × T)

/-- Register a contract in the registry (`ContractRegistry::register`,
which calls `HashMap::insert`). -/
def ContractRegistry.register {T : Type} (r : ContractRegistry T)
    (address : Address) (contract : T) : ContractRegistry T :=
  ⟨insertAssoc r.contracts address contract⟩

/-- Get a contract from the registry (`ContractRegistry::get`, which calls
`HashMap::get`). -/
def ContractRegistry.get {T : Type} (r : ContractRegistry T)
    (address : Address) : Option T :=
  lookupAssoc r.contracts address

/-- Keys of the registry's map (`self.contracts.keys()`). -/
def ContractRegistry.keys {T : Type} (r : ContractRegistry T) : List Address :=
  r.contracts.map Prod.fst

/-- Default `ContractRegistry`: an empty map. -/
def ContractRegistry.default {T : Type} : ContractRegistry T := ⟨[]⟩

/-- Registry built by a sequence of `register` calls starting from the
empty (default) registry, in list order. -/
def ContractRegistry.of_registrations {T : Type}
    (entries : List (Address × T)) : ContractRegistry T :=
  entries.foldl (fun r p => r.register p.1 p.2) ContractRegistry.default

/-- Chain specification for Rundler (`ChainSpec`).  Field order and names
follow the source; `u64` fields become `Nat` (their `u64` range is imposed
where a claim needs it), `usize` becomes `Nat`, `f64` fields that are
exactly representable become `Rat`. -/
structure ChainSpec where
  /-- name for logging purposes, no logic is performed on this -/
  name : String
  /-- chain id -/
  id : Nat
  /-- entry point address for v0_6 -/
  entry_point_address_v0_6 : Address
  /-- entry point address for v0_7 -/
  entry_point_address_v0_7 : Address
  /-- address of the multicall3 contract -/
  multicall3_address : Address
  /-- overhead when performing gas estimation for deposit storage and transfer -/
  deposit_transfer_overhead : Nat
  /-- the maximum size of a transaction in bytes -/
  max_transaction_size_bytes : Nat
  /-- the block gas limit -/
  block_gas_limit : Nat
  /-- intrinsic gas cost for a transaction -/
  transaction_intrinsic_gas : Nat
  /-- per user operation gas cost for v0.6 -/
  per_user_op_v0_6_gas : Nat
  /-- per user operation gas cost for v0.7 -/
  per_user_op_v0_7_gas : Nat
  /-- per user operation deploy gas cost overhead -/
  per_user_op_deploy_overhead_gas : Nat
  /-- gas cost for a user operation word in a bundle transaction -/
  per_user_op_word_gas : Nat
  /-- gas cost for a zero byte in calldata -/
  calldata_zero_byte_gas : Nat
  /-- gas cost for a non-zero byte in calldata -/
  calldata_non_zero_byte_gas : Nat
  /-- gas cost for a zero byte in calldata for the floor operation -/
  calldata_floor_zero_byte_gas : Nat
  /-- gas cost for a non-zero byte in calldata for the floor operation -/
  calldata_floor_non_zero_byte_gas : Nat
  /-- true if DA is priced in preVerificationGas -/
  da_pre_verification_gas : Bool
  /-- type of gas oracle contract for pricing calldata in preVerificationGas -/
  da_gas_oracle_type : DAGasOracleType
  /-- address of gas oracle contract for pricing calldata in preVerificationGas -/
  da_gas_oracle_contract_address : Address
  /-- true if DA calldata gas should be included in the gas limit -/
  include_da_gas_in_gas_limit : Bool
  /-- true if eip1559 is enabled, and thus priority fees are used -/
  eip1559_enabled : Bool
  /-- true if eip7702 is enabled -/
  eip7702_enabled : Bool
  /-- type of oracle for estimating priority fees -/
  priority_fee_oracle_type : PriorityFeeOracleType
  /-- minimum max priority fee per gas for the network -/
  min_max_priority_fee_per_gas : Nat
  /-- maximum max priority fee per gas for the network -/
  max_max_priority_fee_per_gas : Nat
  /-- usage ratio of the chain that determines congestion (an `f64` in the
  source; the values used are exactly representable, modelled as `Rat`) -/
  congestion_trigger_usage_ratio_threshold : Rat
  /-- the maximum amount of time to wait before sending a bundle -/
  bundle_max_send_interval_millis : Nat
  /-- true if the flashbots sender is enabled on this chain -/
  flashbots_enabled : Bool
  /-- URL for the flashbots relay, must be set if flashbots is enabled -/
  flashbots_relay_url : Option String
  /-- true if the bloxroute sender is enabled on this chain -/
  bloxroute_enabled : Bool
  /-- size of the chain history to keep to handle reorgs -/
  chain_history_size : Nat
  /-- registry of signature aggregators -/
  signature_aggregators : ContractRegistry SignatureAggregator
  /-- registry of submission proxies -/
  submission_proxies : ContractRegistry SubmissionProxy

/-- Largest `u64` value, `u64::MAX`. -/
def U64_MAX : Nat := 2 ^ 64 - 1

/-- Default `ChainSpec` (`impl Default for ChainSpec`), field values taken
verbatim from the source. -/
def ChainSpec.default : ChainSpec where
  name := "Unknown"
  id := 0
  block_gas_limit := 30000000
  entry_point_address_v0_6 := ENTRY_POINT_ADDRESS_V0_6
  entry_point_address_v0_7 := ENTRY_POINT_ADDRESS_V0_7
  multicall3_address := MULTICALL3_ADDRESS
  deposit_transfer_overhead := 30000
  transaction_intrinsic_gas := 21000
  per_user_op_v0_6_gas := 18300
  per_user_op_v0_7_gas := 19500
  per_user_op_deploy_overhead_gas := 0
  per_user_op_word_gas := 4
  calldata_zero_byte_gas := 4
  calldata_non_zero_byte_gas := 16
  calldata_floor_zero_byte_gas := 0
  calldata_floor_non_zero_byte_gas := 0
  eip1559_enabled := true
  eip7702_enabled := false
  da_pre_verification_gas := false
  da_gas_oracle_type := DAGasOracleType.default
  da_gas_oracle_contract_address := 0
  include_da_gas_in_gas_limit := false
  priority_fee_oracle_type := PriorityFeeOracleType.default
  min_max_priority_fee_per_gas := 0
  max_max_priority_fee_per_gas := U64_MAX
  congestion_trigger_usage_ratio_threshold := (3 : Rat) / 4
  max_transaction_size_bytes := 131072
  bundle_max_send_interval_millis := 1000
  flashbots_enabled := false
  flashbots_relay_url := none
  bloxroute_enabled := false
  chain_history_size := 64
  signature_aggregators := ContractRegistry.default
  submission_proxies := ContractRegistry.default

/-- The `as u128` cast applied to a `u64` value: reduction of the numeric
value into the 128-bit width (a no-op for any `u64` value). -/
def as_u128 (x : Nat) : Nat := x % 2 ^ 128

/-- `ChainSpec::deposit_transfer_overhead(&self) -> u128`. -/
def ChainSpec.deposit_transfer_overhead_u128 (cs : ChainSpec) : Nat :=
  as_u128 cs.deposit_transfer_overhead

/-- `ChainSpec::transaction_intrinsic_gas(&self) -> u128`. -/
def ChainSpec.transaction_intrinsic_gas_u128 (cs : ChainSpec) : Nat :=
  as_u128 cs.transaction_intrinsic_gas

/-- `ChainSpec::min_max_priority_fee_per_gas(&self) -> u128`. -/
def ChainSpec.min_max_priority_fee_per_gas_u128 (cs : ChainSpec) : Nat :=
  as_u128 cs.min_max_priority_fee_per_gas

/-- `ChainSpec::max_max_priority_fee_per_gas(&self) -> u128`. -/
def ChainSpec.max_max_priority_fee_per_gas_u128 (cs : ChainSpec) : Nat :=
  as_u128 cs.max_max_priority_fee_per_gas

/-- `ChainSpec::per_user_op_word_gas(&self) -> u128`. -/
def ChainSpec.per_user_op_word_gas_u128 (cs : ChainSpec) : Nat :=
  as_u128 cs.per_user_op_word_gas

/-- `ChainSpec::per_user_op_v0_6_gas(&self) -> u128`. -/
def ChainSpec.per_user_op_v0_6_gas_u128 (cs : ChainSpec) : Nat :=
  as_u128 cs.per_user_op_v0_6_gas

/-- `ChainSpec::per_user_op_v0_7_gas(&self) -> u128`. -/
def ChainSpec.per_user_op_v0_7_gas_u128 (cs : ChainSpec) : Nat :=
  as_u128 cs.per_user_op_v0_7_gas

/-- `ChainSpec::calldata_zero_byte_gas(&self) -> u128`. -/
def ChainSpec.calldata_zero_byte_gas_u128 (cs : ChainSpec) : Nat :=
  as_u128 cs.calldata_zero_byte_gas

/-- `ChainSpec::calldata_non_zero_byte_gas(&self) -> u128`. -/
def ChainSpec.calldata_non_zero_byte_gas_u128 (cs : ChainSpec) : Nat :=
  as_u128 cs.calldata_non_zero_byte_gas

/-- `ChainSpec::calldata_floor_zero_byte_gas(&self) -> u128`. -/
def ChainSpec.calldata_floor_zero_byte_gas_u128 (cs : ChainSpec) : Nat :=
  as_u128 cs.calldata_floor_zero_byte_gas

/-- `ChainSpec::calldata_floor_non_zero_byte_gas(&self) -> u128`. -/
def ChainSpec.calldata_floor_non_zero_byte_gas_u128 (cs : ChainSpec) : Nat :=
  as_u128 cs.calldata_floor_non_zero_byte_gas

/-- `ChainSpec::per_user_op_deploy_overhead_gas(&self) -> u128`. -/
def ChainSpec.per_user_op_deploy_overhead_gas_u128 (cs : ChainSpec) : Nat :=
  as_u128 cs.per_user_op_deploy_overhead_gas

/-- `ChainSpec::set_signature_aggregators` (a `&mut self` method in the
source; state update modelled functionally). -/
def ChainSpec.set_signature_aggregators (cs : ChainSpec)
    (signature_aggregators : ContractRegistry SignatureAggregator) : ChainSpec :=
  { cs with signature_aggregators := signature_aggregators }

/-- `ChainSpec::get_signature_aggregator`. -/
def ChainSpec.get_signature_aggregator (cs : ChainSpec)
    (address : Address) : Option SignatureAggregator :=
  cs.signature_aggregators.get address

/-- `ChainSpec::set_submission_proxies` (a `&mut self` method in the
source; state update modelled functionally). -/
def ChainSpec.set_submission_proxies (cs : ChainSpec)
    (submission_proxies : ContractRegistry SubmissionProxy) : ChainSpec :=
  { cs with submission_proxies := submission_proxies }

/-- `ChainSpec::get_submission_proxy`. -/
def ChainSpec.get_submission_proxy (cs : ChainSpec)
    (address : Address) : Option SubmissionProxy :=
  cs.submission_proxies.get address

/-- `ChainSpec::known_proxy_addresses`: the keys of the submission-proxy
registry. -/
def ChainSpec.known_proxy_addresses (cs : ChainSpec) : List Address :=
  cs.submission_proxies.keys

/-- `ChainSpec::supports_eip7702`. -/
def ChainSpec.supports_eip7702 (cs : ChainSpec) (entry_point : Address) : Bool :=
  cs.eip7702_enabled || entry_point == cs.entry_point_address_v0_7

/-- Modelled from the spec: the gas cost model's standard calldata formula
(the gas-computation crate is not among the sources; only the per-byte
constants live in `ChainSpec`).  Standard calldata gas for an operation
with `z` zero calldata bytes and `nz` non-zero calldata bytes is
`z * calldata_zero_byte_gas + nz * calldata_non_zero_byte_gas`. -/
def standard_calldata_gas (cs : ChainSpec) (z nz : Nat) : Nat :=
  z * cs.calldata_zero_byte_gas + nz * cs.calldata_non_zero_byte_gas

/-- Modelled from the spec: the calldata-floor gas, computed the same way
as `standard_calldata_gas` with the floor-specific per-byte costs. -/
def floor_calldata_gas (cs : ChainSpec) (z nz : Nat) : Nat :=
  z * cs.calldata_floor_zero_byte_gas + nz * cs.calldata_floor_non_zero_byte_gas

/-- Modelled from the spec: the operation's charged calldata gas is the
maximum of the standard and the floor calculation. -/
def charged_calldata_gas (cs : ChainSpec) (z nz : Nat) : Nat :=
  max (standard_calldata_gas cs z nz) (floor_calldata_gas cs z nz)

/-- A submission channel of the Dispatcher (spec §4.5): the public
broadcast channel or one of the private relays. -/
inductive Channel where
  /-- public broadcast channel, always enabled -/
  | public_broadcast
  /-- flashbots private relay -/
  | flashbots
  /-- bloxroute private relay -/
  | bloxroute
deriving DecidableEq, Repr

/-- Modelled from the spec: the Submission Dispatcher's channel set (the
dispatcher crate is not among the sources).  The set always includes the
public channel; it includes flashbots when `flashbots_enabled` — which
requires `flashbots_relay_url` to be set, otherwise no channel set can be
derived — and bloxroute when `bloxroute_enabled`. -/
def derive_channels (cs : ChainSpec) : Option (List Channel) :=
  if cs.flashbots_enabled && cs.flashbots_relay_url.isNone then
    none
  else
    some ([Channel.public_broadcast]
      ++ (if cs.flashbots_enabled then [Channel.flashbots] else [])
      ++ (if cs.bloxroute_enabled then [Channel.bloxroute] else []))

/-- Range constraint carried by the Rust types: every `u64` gas field of a
`ChainSpec` holds a value of at most `u64::MAX`. -/
def ChainSpec.gas_fields_in_u64_range (cs : ChainSpec) : Prop :=
  cs.deposit_transfer_overhead ≤ U64_MAX ∧
  cs.transaction_intrinsic_gas ≤ U64_MAX ∧
  cs.min_max_priority_fee_per_gas ≤ U64_MAX ∧
  cs.max_max_priority_fee_per_gas ≤ U64_MAX ∧
  cs.per_user_op_word_gas ≤ U64_MAX ∧
  cs.per_user_op_v0_6_gas ≤ U64_MAX ∧
  cs.per_user_op_v0_7_gas ≤ U64_MAX ∧
  cs.calldata_zero_byte_gas ≤ U64_MAX ∧
  cs.calldata_non_zero_byte_gas ≤ U64_MAX ∧
  cs.calldata_floor_zero_byte_gas ≤ U64_MAX ∧
  cs.calldata_floor_non_zero_byte_gas ≤ U64_MAX ∧
  cs.per_user_op_deploy_overhead_gas ≤ U64_MAX

instance (cs : ChainSpec) : Decidable cs.gas_fields_in_u64_range := by
  unfold ChainSpec.gas_fields_in_u64_range
  infer_instance

/-- Example configuration with the flashbots channel enabled and its relay
URL set, used to exercise the dispatcher channel derivation. -/
def flashbots_example : ChainSpec :=
  { ChainSpec.default with
      flashbots_enabled := true
      flashbots_relay_url := some "https://relay.flashbots.net" }

/-! ### Association-list lemmas shared by the registry claims -/

theorem lookupAssoc_insertAssoc_self {T : Type} (l : List (Address × T))
    (a : Address) (v : T) : lookupAssoc (insertAssoc l a v) a = some v := by
  induction l with
  | nil => simp [insertAssoc, lookupAssoc]
  | cons p rest ih =>
      obtain ⟨k, w⟩ := p
      by_cases h : k = a
      · subst h
        simp [insertAssoc, lookupAssoc]
      · simp [insertAssoc, h, lookupAssoc, ih]

theorem lookupAssoc_insertAssoc_ne {T : Type} (l : List (Address × T))
    (a b : Address) (v : T) (hab : a ≠ b) :
    lookupAssoc (insertAssoc l a v) b = lookupAssoc l b := by
  induction l with
  | nil => simp [insertAssoc, lookupAssoc, hab]
  | cons p rest ih =>
      obtain ⟨k, w⟩ := p
      by_cases h : k = a
      · subst h
        simp [insertAssoc, lookupAssoc, hab]
      · simp [insertAssoc, h, lookupAssoc, ih]

theorem keys_insertAssoc {T : Type} (l : List (Address × T)) (a : Address) (v : T) :
    (insertAssoc l a v).map Prod.fst =
      if a ∈ l.map Prod.fst then l.map Prod.fst else l.map Prod.fst ++ [a] := by
  induction l with
  | nil => simp [insertAssoc]
  | cons p rest ih =>
      obtain ⟨k, w⟩ := p
      by_cases h : k = a
      · subst h
        simp [insertAssoc]
      · have h' : ¬ a = k := fun e => h e.symm
        simp only [insertAssoc, h, if_false, List.map_cons, ih, List.mem_cons, h',
          false_or]
        by_cases hm : a ∈ rest.map Prod.fst <;> simp [hm, h']

theorem lookupAssoc_isSome_iff_mem_keys {T : Type} (l : List (Address × T))
    (a : Address) : (lookupAssoc l a).isSome = true ↔ a ∈ l.map Prod.fst := by
  induction l with
  | nil => simp [lookupAssoc]
  | cons p rest ih =>
      obtain ⟨k, w⟩ := p
      by_cases h : k = a
      · subst h
        simp [lookupAssoc]
      · have h' : ¬ a = k := fun e => h e.symm
        simp [lookupAssoc, h, h', ih]

theorem lookupAssoc_eq_none_iff_not_mem_keys {T : Type} (l : List (Address × T))
    (a : Address) : lookupAssoc l a = none ↔ a ∉ l.map Prod.fst := by
  rw [← lookupAssoc_isSome_iff_mem_keys]
  cases lookupAssoc l a <;> simp

theorem nodup_keys_insertAssoc {T : Type} (l : List (Address × T)) (a : Address)
    (v : T) (h : (l.map Prod.fst).Nodup) :
    ((insertAssoc l a v).map Prod.fst).Nodup := by
  rw [keys_insertAssoc]
  by_cases hm : a ∈ l.map Prod.fst
  · simpa [hm]
  · simpa [hm, List.nodup_append] using h

theorem mem_of_lookupAssoc_eq_some {T : Type} (l : List (Address × T))
    (a : Address) (v : T) (h : lookupAssoc l a = some v) : (a, v) ∈ l := by
  induction l with
  | nil => simp [lookupAssoc] at h
  | cons p rest ih =>
      obtain ⟨k, w⟩ := p
      by_cases hk : k = a
      · subst hk
        simp [lookupAssoc] at h
        subst h
        exact List.mem_cons_self _ _
      · simp [lookupAssoc, hk] at h
        exact List.mem_cons_of_mem _ (ih h)

/-! ### Lemmas about registries built from a sequence of registrations -/

theorem get_foldl_register_eq_none_iff {T : Type} (entries : List (Address × T))
    (r : ContractRegistry T) (a : Address) :
    (entries.foldl (fun r p => r.register p.1 p.2) r).get a = none ↔
      (r.get a = none ∧ a ∉ entries.map Prod.fst) := by
  induction entries generalizing r with
  | nil => simp
  | cons p rest ih =>
      obtain ⟨k, w⟩ := p
      simp only [List.foldl_cons, ih]
      by_cases h : k = a
      · subst h
        simp [ContractRegistry.register, ContractRegistry.get,
          lookupAssoc_insertAssoc_self]
      · have h' : ¬ a = k := fun e => h e.symm
        simp [ContractRegistry.register, ContractRegistry.get,
          lookupAssoc_insertAssoc_ne _ _ _ _ h, h']

theorem get_foldl_register_eq_some {T : Type} (entries : List (Address × T))
    (r : ContractRegistry T) (a : Address) (v : T)
    (h : (entries.foldl (fun r p => r.register p.1 p.2) r).get a = some v) :
    (a, v) ∈ entries ∨ r.get a = some v := by
  induction entries generalizing r with
  | nil => exact Or.inr h
  | cons p rest ih =>
      obtain ⟨k, w⟩ := p
      simp only [List.foldl_cons] at h
      rcases ih _ h with hmem | hget
      · exact Or.inl (List.mem_cons_of_mem _ hmem)
      · by_cases hk : k = a
        · subst hk
          rw [show (ContractRegistry.register r k w).get k = some w from
            lookupAssoc_insertAssoc_self _ _ _] at hget
          cases hget
          exact Or.inl (List.mem_cons_self _ _)
        · rw [show (ContractRegistry.register r k w).get a = r.get a from
            lookupAssoc_insertAssoc_ne _ _ _ _ hk] at hget
          exact Or.inr hget

theorem nodup_keys_of_registrations {T : Type} (entries : List (Address × T)) :
    (ContractRegistry.of_registrations entries).keys.Nodup := by
  have general : ∀ (es : List (Address × T)) (r : ContractRegistry T),
      r.keys.Nodup → (es.foldl (fun r p => r.register p.1 p.2) r).keys.Nodup := by
    intro es
    induction es with
    | nil => intro r h; simpa using h
    | cons p rest ih =>
        intro r h
        exact ih _ (nodup_keys_insertAssoc _ _ _ h)
  exact general entries ContractRegistry.default (by simp [ContractRegistry.default,
    ContractRegistry.keys])

/-! ### Claim theorems -/

/-- C1: for every operation shape (`z` zero calldata bytes, `nz` non-zero
calldata bytes) and every `ChainSpec`, the charged calldata gas equals the
maximum of the standard and the floor per-byte formulas; when both floor
costs are zero the standard formula wins; and under the default `ChainSpec`
(zero-byte cost 4, non-zero cost 16, floor costs 0/0), 100 zero bytes and
50 non-zero bytes yield standard calldata gas 1200, floor calldata gas 0,
and charged calldata gas 1200. -/
theorem charged_calldata_gas_is_max_and_default_scenario
    (cs : ChainSpec) (z nz : Nat) :
    charged_calldata_gas cs z nz =
      max (standard_calldata_gas cs z nz) (floor_calldata_gas cs z nz) ∧
    (cs.calldata_floor_zero_byte_gas = 0 → cs.calldata_floor_non_zero_byte_gas = 0 →
      charged_calldata_gas cs z nz = standard_calldata_gas cs z nz) ∧
    standard_calldata_gas ChainSpec.default 100 50 = 1200 ∧
    floor_calldata_gas ChainSpec.default 100 50 = 0 ∧
    charged_calldata_gas ChainSpec.default 100 50 = 1200 := by
  refine ⟨rfl, ?_, by rfl, by rfl, by rfl⟩
  intro hz hnz
  simp [charged_calldata_gas, floor_calldata_gas, hz, hnz]

/-- Witness for C1 at the default `ChainSpec` with 100 zero and 50 non-zero
bytes: the floor costs are zero there, so the charged gas is the standard
formula's value. -/
theorem charged_calldata_gas_is_max_and_default_scenario_witness :
    charged_calldata_gas ChainSpec.default 100 50 =
      max (standard_calldata_gas ChainSpec.default 100 50)
        (floor_calldata_gas ChainSpec.default 100 50) ∧
    charged_calldata_gas ChainSpec.default 100 50 =
      standard_calldata_gas ChainSpec.default 100 50 :=
  ⟨(charged_calldata_gas_is_max_and_default_scenario ChainSpec.default 100 50).1,
   (charged_calldata_gas_is_max_and_default_scenario ChainSpec.default 100 50).2.1
     rfl rfl⟩

/-- C2: for every `ChainSpec` whose `u64` fields are in `u64` range (as the
Rust types guarantee), each widening gas-constant accessor returns a
128-bit value exactly equal to the stored field — the `as u128` conversion
is lossless, with no overflow or truncation. -/
theorem widening_accessors_lossless (cs : ChainSpec)
    (h : cs.gas_fields_in_u64_range) :
    cs.deposit_transfer_overhead_u128 = cs.deposit_transfer_overhead ∧
    cs.transaction_intrinsic_gas_u128 = cs.transaction_intrinsic_gas ∧
    cs.min_max_priority_fee_per_gas_u128 = cs.min_max_priority_fee_per_gas ∧
    cs.max_max_priority_fee_per_gas_u128 = cs.max_max_priority_fee_per_gas ∧
    cs.per_user_op_word_gas_u128 = cs.per_user_op_word_gas ∧
    cs.per_user_op_v0_6_gas_u128 = cs.per_user_op_v0_6_gas ∧
    cs.per_user_op_v0_7_gas_u128 = cs.per_user_op_v0_7_gas ∧
    cs.calldata_zero_byte_gas_u128 = cs.calldata_zero_byte_gas ∧
    cs.calldata_non_zero_byte_gas_u128 = cs.calldata_non_zero_byte_gas ∧
    cs.calldata_floor_zero_byte_gas_u128 = cs.calldata_floor_zero_byte_gas ∧
    cs.calldata_floor_non_zero_byte_gas_u128 = cs.calldata_floor_non_zero_byte_gas ∧
    cs.per_user_op_deploy_overhead_gas_u128 = cs.per_user_op_deploy_overhead_gas := by
  have key : ∀ x : Nat, x ≤ U64_MAX → as_u128 x = x := by
    intro x hx
    have hlt : x < 2 ^ 128 := lt_of_le_of_lt hx (by norm_num [U64_MAX])
    exact Nat.mod_eq_of_lt hlt
  obtain ⟨h1, h2, h3, h4, h5, h6, h7, h8, h9, h10, h11, h12⟩ := h
  exact ⟨key _ h1, key _ h2, key _ h3, key _ h4, key _ h5, key _ h6, key _ h7,
    key _ h8, key _ h9, key _ h10, key _ h11, key _ h12⟩

/-- Witness for C2 at the default `ChainSpec`. -/
theorem widening_accessors_lossless_witness :
    ChainSpec.default.deposit_transfer_overhead_u128 =
      ChainSpec.default.deposit_transfer_overhead ∧
    ChainSpec.default.transaction_intrinsic_gas_u128 =
      ChainSpec.default.transaction_intrinsic_gas ∧
    ChainSpec.default.min_max_priority_fee_per_gas_u128 =
      ChainSpec.default.min_max_priority_fee_per_gas ∧
    ChainSpec.default.max_max_priority_fee_per_gas_u128 =
      ChainSpec.default.max_max_priority_fee_per_gas ∧
    ChainSpec.default.per_user_op_word_gas_u128 =
      ChainSpec.default.per_user_op_word_gas ∧
    ChainSpec.default.per_user_op_v0_6_gas_u128 =
      ChainSpec.default.per_user_op_v0_6_gas ∧
    ChainSpec.default.per_user_op_v0_7_gas_u128 =
      ChainSpec.default.per_user_op_v0_7_gas ∧
    ChainSpec.default.calldata_zero_byte_gas_u128 =
      ChainSpec.default.calldata_zero_byte_gas ∧
    ChainSpec.default.calldata_non_zero_byte_gas_u128 =
      ChainSpec.default.calldata_non_zero_byte_gas ∧
    ChainSpec.default.calldata_floor_zero_byte_gas_u128 =
      ChainSpec.default.calldata_floor_zero_byte_gas ∧
    ChainSpec.default.calldata_floor_non_zero_byte_gas_u128 =
      ChainSpec.default.calldata_floor_non_zero_byte_gas ∧
    ChainSpec.default.per_user_op_deploy_overhead_gas_u128 =
      ChainSpec.default.per_user_op_deploy_overhead_gas :=
  widening_accessors_lossless ChainSpec.default (by decide)

/-- C8: for every `ChainSpec` and every address, `supports_eip7702` is true
exactly when `eip7702_enabled` holds or the address equals the v0.7 entry
point address; in particular the v0.7 entry point address is always
reported as supported, feature flag or not. -/
theorem supports_eip7702_iff (cs : ChainSpec) (entry_point : Address) :
    (cs.supports_eip7702 entry_point = true ↔
      (cs.eip7702_enabled = true ∨ entry_point = cs.entry_point_address_v0_7)) ∧
    cs.supports_eip7702 cs.entry_point_address_v0_7 = true := by
  constructor
  · simp [ChainSpec.supports_eip7702]
  · simp [ChainSpec.supports_eip7702]

/-- C9: for every `ChainSpec` and every address, the address appears in
`known_proxy_addresses()` exactly when `get_submission_proxy` at that
address returns `Some` — the enumerated proxy addresses are the keys of the
submission-proxy registry. -/
theorem known_proxy_addresses_iff_get_isSome (cs : ChainSpec) (a : Address) :
    a ∈ cs.known_proxy_addresses ↔ (cs.get_submission_proxy a).isSome := by
  simpa [ChainSpec.known_proxy_addresses, ChainSpec.get_submission_proxy,
    ContractRegistry.keys, ContractRegistry.get] using
    (lookupAssoc_isSome_iff_mem_keys cs.submission_proxies.contracts a).symm

/-- C10: the default `ChainSpec` selects the `Provider` priority-fee oracle
strategy and leaves the clamp range maximally wide: the minimum accessor
yields 0 and the maximum accessor yields `2 ^ 64 - 1`, so the clamp
interval is non-empty and every `u64` provider-suggested fee lies within
it. -/
theorem default_priority_fee_clamp_range (f : Nat) (hf : f ≤ U64_MAX) :
    ChainSpec.default.priority_fee_oracle_type = PriorityFeeOracleType.Provider ∧
    ChainSpec.default.min_max_priority_fee_per_gas_u128 = 0 ∧
    ChainSpec.default.max_max_priority_fee_per_gas_u128 = 2 ^ 64 - 1 ∧
    ChainSpec.default.min_max_priority_fee_per_gas_u128 ≤
      ChainSpec.default.max_max_priority_fee_per_gas_u128 ∧
    ChainSpec.default.min_max_priority_fee_per_gas_u128 ≤ f ∧
    f ≤ ChainSpec.default.max_max_priority_fee_per_gas_u128 := by
  have hmin : ChainSpec.default.min_max_priority_fee_per_gas_u128 = 0 := by decide
  have hmax : ChainSpec.default.max_max_priority_fee_per_gas_u128 = 2 ^ 64 - 1 := by
    decide
  refine ⟨rfl, hmin, hmax, ?_, ?_, ?_⟩
  · rw [hmin]
    exact Nat.zero_le _
  · rw [hmin]
    exact Nat.zero_le _
  · rw [hmax]
    exact hf

/-- Witness for C10 at the concrete fee 12345. -/
theorem default_priority_fee_clamp_range_witness :
    ChainSpec.default.priority_fee_oracle_type = PriorityFeeOracleType.Provider ∧
    ChainSpec.default.min_max_priority_fee_per_gas_u128 = 0 ∧
    ChainSpec.default.max_max_priority_fee_per_gas_u128 = 2 ^ 64 - 1 ∧
    ChainSpec.default.min_max_priority_fee_per_gas_u128 ≤
      ChainSpec.default.max_max_priority_fee_per_gas_u128 ∧
    ChainSpec.default.min_max_priority_fee_per_gas_u128 ≤ 12345 ∧
    12345 ≤ ChainSpec.default.max_max_priority_fee_per_gas_u128 :=
  default_priority_fee_clamp_range 12345 (by decide)

/-- C4 counterexample: `ChainSpec` is not immutable after construction —
the public method `set_signature_aggregators` changes the
`signature_aggregators` field, so applying it to the default instance with
a non-empty registry yields a different instance. -/
theorem set_signature_aggregators_mutates :
    ChainSpec.default.set_signature_aggregators
        (ContractRegistry.default.register 1 ⟨0⟩) ≠ ChainSpec.default := by
  intro h
  have h2 := congrArg (fun cs => cs.signature_aggregators.contracts) h
  simp [ChainSpec.set_signature_aggregators, ChainSpec.default,
    ContractRegistry.register, ContractRegistry.default, insertAssoc] at h2

/-- C4 (amended): the only mutating public operations of `ChainSpec` are
`set_signature_aggregators` and `set_submission_proxies`; each replaces
exactly its own registry field and leaves every other field unchanged. -/
theorem setters_replace_only_their_registry (cs : ChainSpec)
    (ra : ContractRegistry SignatureAggregator)
    (rp : ContractRegistry SubmissionProxy) :
    (cs.set_signature_aggregators ra).signature_aggregators = ra ∧
    (cs.set_signature_aggregators ra).name = cs.name ∧
    (cs.set_signature_aggregators ra).id = cs.id ∧
    (cs.set_signature_aggregators ra).entry_point_address_v0_6 =
      cs.entry_point_address_v0_6 ∧
    (cs.set_signature_aggregators ra).entry_point_address_v0_7 =
      cs.entry_point_address_v0_7 ∧
    (cs.set_signature_aggregators ra).multicall3_address = cs.multicall3_address ∧
    (cs.set_signature_aggregators ra).deposit_transfer_overhead =
      cs.deposit_transfer_overhead ∧
    (cs.set_signature_aggregators ra).max_transaction_size_bytes =
      cs.max_transaction_size_bytes ∧
    (cs.set_signature_aggregators ra).block_gas_limit = cs.block_gas_limit ∧
    (cs.set_signature_aggregators ra).transaction_intrinsic_gas =
      cs.transaction_intrinsic_gas ∧
    (cs.set_signature_aggregators ra).per_user_op_v0_6_gas = cs.per_user_op_v0_6_gas ∧
    (cs.set_signature_aggregators ra).per_user_op_v0_7_gas = cs.per_user_op_v0_7_gas ∧
    (cs.set_signature_aggregators ra).per_user_op_deploy_overhead_gas =
      cs.per_user_op_deploy_overhead_gas ∧
    (cs.set_signature_aggregators ra).per_user_op_word_gas = cs.per_user_op_word_gas ∧
    (cs.set_signature_aggregators ra).calldata_zero_byte_gas =
      cs.calldata_zero_byte_gas ∧
    (cs.set_signature_aggregators ra).calldata_non_zero_byte_gas =
      cs.calldata_non_zero_byte_gas ∧
    (cs.set_signature_aggregators ra).calldata_floor_zero_byte_gas =
      cs.calldata_floor_zero_byte_gas ∧
    (cs.set_signature_aggregators ra).calldata_floor_non_zero_byte_gas =
      cs.calldata_floor_non_zero_byte_gas ∧
    (cs.set_signature_aggregators ra).da_pre_verification_gas =
      cs.da_pre_verification_gas ∧
    (cs.set_signature_aggregators ra).da_gas_oracle_type = cs.da_gas_oracle_type ∧
    (cs.set_signature_aggregators ra).da_gas_oracle_contract_address =
      cs.da_gas_oracle_contract_address ∧
    (cs.set_signature_aggregators ra).include_da_gas_in_gas_limit =
      cs.include_da_gas_in_gas_limit ∧
    (cs.set_signature_aggregators ra).eip1559_enabled = cs.eip1559_enabled ∧
    (cs.set_signature_aggregators ra).eip7702_enabled = cs.eip7702_enabled ∧
    (cs.set_signature_aggregators ra).priority_fee_oracle_type =
      cs.priority_fee_oracle_type ∧
    (cs.set_signature_aggregators ra).min_max_priority_fee_per_gas =
      cs.min_max_priority_fee_per_gas ∧
    (cs.set_signature_aggregators ra).max_max_priority_fee_per_gas =
      cs.max_max_priority_fee_per_gas ∧
    (cs.set_signature_aggregators ra).congestion_trigger_usage_ratio_threshold =
      cs.congestion_trigger_usage_ratio_threshold ∧
    (cs.set_signature_aggregators ra).bundle_max_send_interval_millis =
      cs.bundle_max_send_interval_millis ∧
    (cs.set_signature_aggregators ra).flashbots_enabled = cs.flashbots_enabled ∧
    (cs.set_signature_aggregators ra).flashbots_relay_url = cs.flashbots_relay_url ∧
    (cs.set_signature_aggregators ra).bloxroute_enabled = cs.bloxroute_enabled ∧
    (cs.set_signature_aggregators ra).chain_history_size = cs.chain_history_size ∧
    (cs.set_signature_aggregators ra).submission_proxies = cs.submission_proxies ∧
    (cs.set_submission_proxies rp).submission_proxies = rp ∧
    (cs.set_submission_proxies rp).name = cs.name ∧
    (cs.set_submission_proxies rp).id = cs.id ∧
    (cs.set_submission_proxies rp).entry_point_address_v0_6 =
      cs.entry_point_address_v0_6 ∧
    (cs.set_submission_proxies rp).entry_point_address_v0_7 =
      cs.entry_point_address_v0_7 ∧
    (cs.set_submission_proxies rp).multicall3_address = cs.multicall3_address ∧
    (cs.set_submission_proxies rp).deposit_transfer_overhead =
      cs.deposit_transfer_overhead ∧
    (cs.set_submission_proxies rp).max_transaction_size_bytes =
      cs.max_transaction_size_bytes ∧
    (cs.set_submission_proxies rp).block_gas_limit = cs.block_gas_limit ∧
    (cs.set_submission_proxies rp).transaction_intrinsic_gas =
      cs.transaction_intrinsic_gas ∧
    (cs.set_submission_proxies rp).per_user_op_v0_6_gas = cs.per_user_op_v0_6_gas ∧
    (cs.set_submission_proxies rp).per_user_op_v0_7_gas = cs.per_user_op_v0_7_gas ∧
    (cs.set_submission_proxies rp).per_user_op_deploy_overhead_gas =
      cs.per_user_op_deploy_overhead_gas ∧
    (cs.set_submission_proxies rp).per_user_op_word_gas = cs.per_user_op_word_gas ∧
    (cs.set_submission_proxies rp).calldata_zero_byte_gas =
      cs.calldata_zero_byte_gas ∧
    (cs.set_submission_proxies rp).calldata_non_zero_byte_gas =
      cs.calldata_non_zero_byte_gas ∧
    (cs.set_submission_proxies rp).calldata_floor_zero_byte_gas =
      cs.calldata_floor_zero_byte_gas ∧
    (cs.set_submission_proxies rp).calldata_floor_non_zero_byte_gas =
      cs.calldata_floor_non_zero_byte_gas ∧
    (cs.set_submission_proxies rp).da_pre_verification_gas =
      cs.da_pre_verification_gas ∧
    (cs.set_submission_proxies rp).da_gas_oracle_type = cs.da_gas_oracle_type ∧
    (cs.set_submission_proxies rp).da_gas_oracle_contract_address =
      cs.da_gas_oracle_contract_address ∧
    (cs.set_submission_proxies rp).include_da_gas_in_gas_limit =
      cs.include_da_gas_in_gas_limit ∧
    (cs.set_submission_proxies rp).eip1559_enabled = cs.eip1559_enabled ∧
    (cs.set_submission_proxies rp).eip7702_enabled = cs.eip7702_enabled ∧
    (cs.set_submission_proxies rp).priority_fee_oracle_type =
      cs.priority_fee_oracle_type ∧
    (cs.set_submission_proxies rp).min_max_priority_fee_per_gas =
      cs.min_max_priority_fee_per_gas ∧
    (cs.set_submission_proxies rp).max_max_priority_fee_per_gas =
      cs.max_max_priority_fee_per_gas ∧
    (cs.set_submission_proxies rp).congestion_trigger_usage_ratio_threshold =
      cs.congestion_trigger_usage_ratio_threshold ∧
    (cs.set_submission_proxies rp).bundle_max_send_interval_millis =
      cs.bundle_max_send_interval_millis ∧
    (cs.set_submission_proxies rp).flashbots_enabled = cs.flashbots_enabled ∧
    (cs.set_submission_proxies rp).flashbots_relay_url = cs.flashbots_relay_url ∧
    (cs.set_submission_proxies rp).bloxroute_enabled = cs.bloxroute_enabled ∧
    (cs.set_submission_proxies rp).chain_history_size = cs.chain_history_size ∧
    (cs.set_submission_proxies rp).signature_aggregators = cs.signature_aggregators := by
  repeat' apply And.intro
  all_goals rfl

/-- C5: for every `ChainSpec` whose registries were populated by a sequence
of `register` calls, `get_signature_aggregator` (resp.
`get_submission_proxy`) returns `none` exactly when no capability was ever
registered at the queried address, and any `some` it returns is a
registered capability — absence of a key is the `none` default path, never
an error. -/
theorem get_capability_none_iff_never_registered
    (entries : List (Address × SignatureAggregator))
    (pentries : List (Address × SubmissionProxy)) (cs0 : ChainSpec) (a : Address) :
    ((cs0.set_signature_aggregators
        (ContractRegistry.of_registrations entries)).get_signature_aggregator a
          = none ↔ a ∉ entries.map Prod.fst) ∧
    (∀ v, (cs0.set_signature_aggregators
        (ContractRegistry.of_registrations entries)).get_signature_aggregator a
          = some v → (a, v) ∈ entries) ∧
    ((cs0.set_submission_proxies
        (ContractRegistry.of_registrations pentries)).get_submission_proxy a
          = none ↔ a ∉ pentries.map Prod.fst) ∧
    (∀ v, (cs0.set_submission_proxies
        (ContractRegistry.of_registrations pentries)).get_submission_proxy a
          = some v → (a, v) ∈ pentries) := by
  have hget : ∀ {T : Type} (es : List (Address × T)) (x : Address),
      (ContractRegistry.of_registrations es).get x = none ↔ x ∉ es.map Prod.fst := by
    intro T es x
    rw [ContractRegistry.of_registrations, get_foldl_register_eq_none_iff]
    simp [ContractRegistry.default, ContractRegistry.get, lookupAssoc]
  have hsome : ∀ {T : Type} (es : List (Address × T)) (x : Address) (v : T),
      (ContractRegistry.of_registrations es).get x = some v → (x, v) ∈ es := by
    intro T es x v hv
    rcases get_foldl_register_eq_some es ContractRegistry.default x v hv with h | h
    · exact h
    · simp [ContractRegistry.default, ContractRegistry.get, lookupAssoc] at h
  exact ⟨hget entries a, fun v hv => hsome entries a v hv,
    hget pentries a, fun v hv => hsome pentries a v hv⟩

/-- Witness for C5: registries holding one aggregator at address 1 and one
proxy at address 2; the returned capabilities are among the registered
entries. -/
theorem get_capability_none_iff_never_registered_witness :
    ((1 : Address), (⟨7⟩ : SignatureAggregator)) ∈
      [((1 : Address), (⟨7⟩ : SignatureAggregator))] ∧
    ((2 : Address), (⟨8⟩ : SubmissionProxy)) ∈
      [((2 : Address), (⟨8⟩ : SubmissionProxy))] :=
  ⟨(get_capability_none_iff_never_registered [(1, ⟨7⟩)] [(2, ⟨8⟩)]
      ChainSpec.default 1).2.1 ⟨7⟩ rfl,
   (get_capability_none_iff_never_registered [(1, ⟨7⟩)] [(2, ⟨8⟩)]
      ChainSpec.default 2).2.2.2 ⟨8⟩ rfl⟩

/-- C6: in a registry populated by `register` calls each address maps to at
most one capability (the key list has no duplicates); registering at an
address already present replaces the previous capability, so `get` returns
the most recently registered value; and registrations at distinct addresses
commute — the populated registry's lookups do not depend on their relative
order. -/
theorem register_replaces_and_order_irrelevant {T : Type}
    (entries : List (Address × T)) (r : ContractRegistry T)
    (a b x : Address) (v₁ v₂ w : T) (hab : a ≠ b) :
    (ContractRegistry.of_registrations entries).keys.Nodup ∧
    ((r.register a v₁).register a v₂).get a = some v₂ ∧
    ((r.register a v₁).register b w).get x = ((r.register b w).register a v₁).get x := by
  refine ⟨nodup_keys_of_registrations entries, ?_, ?_⟩
  · exact lookupAssoc_insertAssoc_self _ _ _
  · show lookupAssoc (insertAssoc (insertAssoc r.contracts a v₁) b w) x =
      lookupAssoc (insertAssoc (insertAssoc r.contracts b w) a v₁) x
    by_cases hxa : x = a
    · subst hxa
      rw [lookupAssoc_insertAssoc_ne _ _ _ _ (fun e => hab e.symm),
        lookupAssoc_insertAssoc_self, lookupAssoc_insertAssoc_self]
    · by_cases hxb : x = b
      · subst hxb
        rw [lookupAssoc_insertAssoc_self, lookupAssoc_insertAssoc_ne _ _ _ _ hab,
          lookupAssoc_insertAssoc_self]
      · rw [lookupAssoc_insertAssoc_ne _ _ _ _ (fun e => hxb e.symm),
          lookupAssoc_insertAssoc_ne _ _ _ _ (fun e => hxa e.symm),
          lookupAssoc_insertAssoc_ne _ _ _ _ (fun e => hxa e.symm),
          lookupAssoc_insertAssoc_ne _ _ _ _ (fun e => hxb e.symm)]

/-- Witness for C6 at a concrete registry: one prior entry at address 9,
re-registration at address 3, and commuting registrations at addresses 3
and 4, observed at address 3. -/
theorem register_replaces_and_order_irrelevant_witness :
    (ContractRegistry.of_registrations
        [((9 : Address), (⟨1⟩ : SignatureAggregator))]).keys.Nodup ∧
    ((ContractRegistry.default.register 3 ⟨5⟩).register 3 ⟨6⟩).get 3 =
      some (⟨6⟩ : SignatureAggregator) ∧
    ((ContractRegistry.default.register 3 (⟨5⟩ : SignatureAggregator)).register 4
        ⟨7⟩).get 3 =
      ((ContractRegistry.default.register 4 ⟨7⟩).register 3 ⟨5⟩).get 3 :=
  register_replaces_and_order_irrelevant [(9, ⟨1⟩)] ContractRegistry.default
    3 4 3 ⟨5⟩ ⟨6⟩ ⟨7⟩ (by decide)

/-- C7: whenever the Dispatcher can derive a channel set from a
`ChainSpec`, `flashbots_enabled` implies that `flashbots_relay_url` is set;
and the default `ChainSpec` has flashbots disabled, no relay URL, and
bloxroute disabled, so only the public channel is enabled by default. -/
theorem flashbots_channel_requires_relay_url (cs : ChainSpec)
    (h : (derive_channels cs).isSome) :
    (cs.flashbots_enabled = true → cs.flashbots_relay_url.isSome) ∧
    ChainSpec.default.flashbots_enabled = false ∧
    ChainSpec.default.flashbots_relay_url = none ∧
    ChainSpec.default.bloxroute_enabled = false ∧
    derive_channels ChainSpec.default = some [Channel.public_broadcast] := by
  refine ⟨?_, rfl, rfl, rfl, rfl⟩
  intro hf
  cases hu : cs.flashbots_relay_url with
  | some u => simp
  | none =>
      rw [derive_channels, hf, hu] at h
      simp at h

/-- Witness for C7: a configuration with flashbots enabled and a relay URL
set derives a channel set, and its relay URL is indeed present. -/
theorem flashbots_channel_requires_relay_url_witness :
    flashbots_example.flashbots_relay_url.isSome ∧
    derive_channels ChainSpec.default = some [Channel.public_broadcast] :=
  ⟨(flashbots_channel_requires_relay_url flashbots_example (by rfl)).1 rfl,
   (flashbots_channel_requires_relay_url flashbots_example (by rfl)).2.2.2.2⟩

end Rundler
